import Mathlib

/-!
Shallow embedding of the TCP three-way-handshake simulator core
(`src/components/TCPHandshakeSimulator.tsx`, primary variant with retries,
and the ISN initialisation of the simpler variant `SimpleTCPSimulator`).

The React component's `useState` cells become fields of a `SimState` record;
each handler becomes a pure state-passing function.  A `useState` setter
updates the committed state, but an identifier read inside a running handler
is the constant its render closure captured; within a single handler
invocation every cell except `isSimulating` is read before it is written, so
plain state passing is faithful for them, while the auto loop's
`isSimulating` guard reads the stale captured value, modelled explicitly in
`startAutoSimulation`.  Calls to `Math.random()`
are modelled by explicit rational draws in `[0, 1)` passed as arguments
(one draw per call site, in source order).  The animation layer is modelled
only by its control flow: `animatePacket` resolves `true` when the packet is
not dropped and `false` when the loss oracle drops it, and the "packet
departed" outbound event (spec section 6) is surfaced as the `event` field of
`StepResult`.  Timed pauses (transit, backoff, inter-step delay) have no
state effect and are elided.  Log entries keep the deterministic observables
(message text and severity); wall-clock timestamps and `Date.now()` ids are
out of scope.
-/

/-- Endpoint TCP state, from `type TCPState` in the source. -/
inductive TCPState where
  | CLOSED
  | SYN_SENT
  | SYN_RECEIVED
  | ESTABLISHED
  | FAILED
deriving DecidableEq

/-- Overall connection status, from `type ConnectionStatus`. -/
inductive ConnectionStatus where
  | idle
  | connecting
  | established
  | failed
deriving DecidableEq

/-- Loss policy, from `type PacketLoss`. -/
inductive PacketLoss where
  | none
  | syn
  | synAck
  | ack
  | random
deriving DecidableEq

/-- Log entry severity, from `LogEntry.type` in the source. -/
inductive LogType where
  | info
  | success
  | error
  | warning
deriving DecidableEq

/-- Handshake packet kind, from `PacketAnimation.type`. -/
inductive PacketType where
  | SYN
  | SYN_ACK
  | ACK
deriving DecidableEq

/-- Packet direction, from `PacketAnimation.direction`. -/
inductive Direction where
  | clientToServer
  | serverToClient
deriving DecidableEq

/-- One simulated handshake packet, from `interface PacketAnimation`. -/
structure PacketAnimation where
  type : PacketType
  seq : Option ℤ
  ack : Option ℤ
  direction : Direction
deriving DecidableEq

/-- The component's `useState` cells that carry core logic (presentation-only
cells such as `animationSpeed` and `simulationMode` are elided; log entries
keep message and severity). -/
structure SimState where
  clientState : TCPState
  serverState : TCPState
  connectionStatus : ConnectionStatus
  logs : List (String × LogType)
  packetLoss : PacketLoss
  randomizeISN : Bool
  currentStep : ℕ
  isSimulating : Bool
  retryCount : ℕ
  clientISN : ℤ
  serverISN : ℤ
  clientSeq : ℤ
  serverSeq : ℤ
deriving DecidableEq

/-- The initial values of the `useState` cells at first render:
client/server CLOSED, status idle, loss none, randomize on, ISNs 1000/2000,
seqs 1000/2000. -/
def initialState : SimState where
  clientState := .CLOSED
  serverState := .CLOSED
  connectionStatus := .idle
  logs := []
  packetLoss := .none
  randomizeISN := true
  currentStep := 0
  isSimulating := false
  retryCount := 0
  clientISN := 1000
  serverISN := 2000
  clientSeq := 1000
  serverSeq := 2000

/-- The string value of each `PacketAnimation.type` literal. -/
def packetTypeTag : PacketType → String
  | .SYN => "SYN"
  | .SYN_ACK => "SYN-ACK"
  | .ACK => "ACK"

/-- The string value of each `PacketLoss` literal. -/
def lossTag : PacketLoss → String
  | .none => "none"
  | .syn => "syn"
  | .synAck => "syn-ack"
  | .ack => "ack"
  | .random => "random"

/-- Source `addLog`: appends one entry to the log.  The wall-clock timestamp
and `Date.now()` id of the source entry are not modelled. -/
def addLog (s : SimState) (message : String) (t : LogType) : SimState :=
  { s with logs := s.logs ++ [(message, t)] }

/-- Source `generateISN` of the primary variant:
`randomizeISN ? Math.floor(Math.random() * 10000) + 1000 : 1000`.
The value `Math.floor(Math.random() * 10000)` of the draw is passed as the
natural number `r` (range `[0, 9999]` for `Math.random()` in `[0, 1)`).
Note the single base 1000 regardless of which endpoint the caller is
generating for. -/
def generateISN (randomizeISN : Bool) (r : ℕ) : ℤ :=
  if randomizeISN then (r : ℤ) + 1000 else 1000

/-- Client ISN initialisation of the simpler variant (`SimpleTCPSimulator`):
`randomizeISN ? Math.floor(Math.random() * 10000) + 1000 : 1000`, with the
floored draw passed as `r`. -/
def simpleClientISNInit (randomizeISN : Bool) (r : ℕ) : ℤ :=
  if randomizeISN then (r : ℤ) + 1000 else 1000

/-- Server ISN initialisation of the simpler variant (`SimpleTCPSimulator`):
`randomizeISN ? Math.floor(Math.random() * 10000) + 2000 : 2000`, with the
floored draw passed as `r`. -/
def simpleServerISNInit (randomizeISN : Bool) (r : ℕ) : ℤ :=
  if randomizeISN then (r : ℤ) + 2000 else 2000

/-- Source `resetSimulation`: endpoints to CLOSED, status idle, step 0,
not simulating, retry 0; both ISNs regenerated by `generateISN` (floored
draws `r1` for the client and `r2` for the server) and copied into the seq
cells; log
cleared and the reset notice appended.  The animation-element resets have no
core-state effect. -/
def resetSimulation (s : SimState) (r1 r2 : ℕ) : SimState :=
  let newClientISN := generateISN s.randomizeISN r1
  let newServerISN := generateISN s.randomizeISN r2
  addLog
    { s with
      clientState := .CLOSED
      serverState := .CLOSED
      connectionStatus := .idle
      currentStep := 0
      isSimulating := false
      retryCount := 0
      clientISN := newClientISN
      serverISN := newServerISN
      clientSeq := newClientISN
      serverSeq := newServerISN
      logs := [] }
    "Simulation reset. Ready to start TCP 3-Way Handshake." .info

/-- JavaScript `toLowerCase()` restricted to what the simulator feeds it
(ASCII packet-type tags), written over the character list so it is
kernel-reducible. -/
def strToLower (s : String) : String :=
  ⟨s.data.map Char.toLower⟩

/-- Source `shouldDropPacket`: `none` never drops; a kind policy drops iff it
equals the lowercased packet type; `random` drops iff the `Math.random()`
draw `q` is below 0.3.  The draw is only consumed in the `random` branch. -/
def shouldDropPacket (packetLoss : PacketLoss) (packetType : String) (q : ℚ) : Bool :=
  if packetLoss = .none then false
  else if lossTag packetLoss = strToLower packetType then true
  else if packetLoss = .random then decide (q < mkRat 3 10)
  else false

/-- Textual direction used in the departure log message. -/
def directionText : Direction → String
  | .clientToServer => "Client → Server"
  | .serverToClient => "Server → Client"

/-- The packet label interpolated into the departure log message:
`type (seq=…, ack=…)` with the optional parts present exactly when the
corresponding field is. -/
def packetLabel (a : PacketAnimation) : String :=
  packetTypeTag a.type ++
    match a.seq with
    | some n =>
        " (seq=" ++ toString n ++
          (match a.ack with
           | some k => ", ack=" ++ toString k
           | Option.none => "") ++ ")"
    | Option.none => ""

/-- Result of one packet animation / step execution: the boolean the promise
resolves with, the resulting state, and the "packet departed" outbound event
(`some` exactly when the packet was not dropped). -/
structure StepResult where
  success : Bool
  state : SimState
  event : Option PacketAnimation
deriving DecidableEq

/-- Source `animatePacket`: consults the loss oracle (draw `q`); on drop it
logs the loss and resolves `false`; otherwise it logs the departure and the
animation completes, resolving `true`.  The DOM refs are mounted, so the
early `resolve(false)` on missing refs cannot fire. -/
def animatePacket (s : SimState) (a : PacketAnimation) (q : ℚ) : StepResult :=
  if shouldDropPacket s.packetLoss (packetTypeTag a.type) q then
    ⟨false, addLog s ("❌ " ++ packetTypeTag a.type ++ " packet lost!") .error, Option.none⟩
  else
    ⟨true,
      addLog s ("📤 " ++ directionText a.direction ++ ": " ++ packetLabel a) .info,
      some a⟩

/-- Source `executeStep`: the per-step pre-transition is applied before the
packet is animated (steps 1 and 2); step 3 applies the established
post-transition only on success; any other step index returns `false` with
no state change.  The loss draw for the attempt is `q`. -/
def executeStep (s : SimState) (step : ℕ) (q : ℚ) : StepResult :=
  if step = 1 then
    let s1 := { s with clientState := .SYN_SENT, connectionStatus := .connecting }
    animatePacket s1 ⟨.SYN, some s.clientSeq, Option.none, .clientToServer⟩ q
  else if step = 2 then
    let s1 := { s with serverState := .SYN_RECEIVED }
    animatePacket s1 ⟨.SYN_ACK, some s.serverSeq, some (s.clientSeq + 1), .serverToClient⟩ q
  else if step = 3 then
    let r := animatePacket s ⟨.ACK, some (s.clientSeq + 1), some (s.serverSeq + 1), .clientToServer⟩ q
    if r.success then
      ⟨true,
        addLog
          { r.state with
            clientState := .ESTABLISHED
            serverState := .ESTABLISHED
            connectionStatus := .established }
          "✅ CONNECTION ESTABLISHED" .success,
        r.event⟩
    else r
  else ⟨false, s, Option.none⟩

/-- Source `maxRetries` (local constant of `handleStepExecution`). -/
def maxRetries : ℕ := 3

/-- The terminal-failure tail of `handleStepExecution`: status failed, both
endpoints FAILED, failure log entry, simulation flag cleared.  The retry
counter is left at its current value. -/
def failAfterRetries (s : SimState) : SimState :=
  { addLog
      { s with
        connectionStatus := .failed
        clientState := .FAILED
        serverState := .FAILED }
      "❌ CONNECTION FAILED - Max retries exceeded" .error
    with isSimulating := false }

/-- The `while (attempts < maxRetries)` loop of `handleStepExecution`,
with `fuel` bounding the remaining iterations (the caller passes
`maxRetries + 1`, enough to reach the exit).  `qs i` is the loss draw of
attempt `i`.  On success the shared retry counter is reset to 0; on failure
the counter is set to the new attempt count and, below the bound, a
retransmission notice is logged (the backoff pause has no state effect). -/
def stepAttemptLoop (step : ℕ) (qs : ℕ → ℚ) : ℕ → ℕ → SimState → Bool × SimState
  | 0, _, s => (false, failAfterRetries s)
  | fuel + 1, attempts, s =>
    if attempts < maxRetries then
      let r := executeStep s step (qs attempts)
      if r.success then
        (true, { r.state with retryCount := 0 })
      else
        let attempts1 := attempts + 1
        let s1 := { r.state with retryCount := attempts1 }
        if attempts1 < maxRetries then
          stepAttemptLoop step qs fuel attempts1
            (addLog s1
              ("🔄 Retransmitting... (Attempt " ++ toString (attempts1 + 1) ++ "/" ++
                toString maxRetries ++ ")") .warning)
        else
          stepAttemptLoop step qs fuel attempts1 s1
    else (false, failAfterRetries s)

/-- Source `handleStepExecution`: run the step with up to `maxRetries`
attempts, starting from attempt count 0. -/
def handleStepExecution (s : SimState) (step : ℕ) (qs : ℕ → ℚ) : Bool × SimState :=
  stepAttemptLoop step qs (maxRetries + 1) 0 s

/-- The `for (step = 1; step <= 3; step++)` body of `startAutoSimulation`.
The `if (!isSimulating) break` guard does not read the committed state: the
`isSimulating` identifier in the source is the constant captured by the
render closure that created the handler, unaffected by any `setIsSimulating`
call made afterwards.  That captured value is passed here as `capturedFlag`
and is the same on every iteration.  When the guard passes, the step runs
with retries; on failure the loop breaks, on success the completed step is
recorded and the loop continues (the inter-step pause has no state effect).
`qss step i` is the loss draw of attempt `i` of `step`. -/
def autoSteps (capturedFlag : Bool) (qss : ℕ → ℕ → ℚ) : List ℕ → SimState → SimState
  | [], s => s
  | step :: rest, s =>
    if capturedFlag then
      let r := handleStepExecution s step (qss step)
      if r.1 then
        autoSteps capturedFlag qss rest { r.2 with currentStep := step }
      else r.2
    else s

/-- Source `startAutoSimulation`: `setIsSimulating(true)`, then the step
loop, then `setIsSimulating(false)`.  The loop's guard reads the stale
render-closure value of `isSimulating` — the committed value `s.isSimulating`
at the render that created the handler — not the `true` just written: the
`setIsSimulating(true)` on the first line never changes the binding the
running async function closed over.  Since the Start button is disabled
while `isSimulating` is true, that captured value is `false` whenever the
handler can fire, and the loop then breaks before step 1. -/
def startAutoSimulation (s : SimState) (qss : ℕ → ℕ → ℚ) : SimState :=
  { autoSteps s.isSimulating qss [1, 2, 3] { s with isSimulating := true } with
      isSimulating := false }

/-- Source `executeNextStep` (single-step mode): no-op once the step counter
reached 3; otherwise run the next step with retries, advance the counter only
on success, and clear the simulating flag. -/
def executeNextStep (s : SimState) (qs : ℕ → ℚ) : SimState :=
  if 3 ≤ s.currentStep then s
  else
    let s1 := { s with isSimulating := true }
    let r := handleStepExecution s1 (s.currentStep + 1) qs
    let s2 := if r.1 then { r.2 with currentStep := s.currentStep + 1 } else r.2
    { s2 with isSimulating := false }

/-- The packet type tag sent by each handshake step, read off the three
`animatePacket` calls of `executeStep` (step 1 SYN, step 2 SYN-ACK,
step 3 ACK). -/
def stepPacketTag : ℕ → String
  | 1 => "SYN"
  | 2 => "SYN-ACK"
  | 3 => "ACK"
  | _ => ""

/-- `animatePacket` only appends to the log: the client state of the
resulting state is that of the input state. -/
theorem animatePacket_clientState (s : SimState) (a : PacketAnimation) (q : ℚ) :
    (animatePacket s a q).state.clientState = s.clientState := by
  unfold animatePacket
  split <;> rfl

/-- `animatePacket` only appends to the log: the server state of the
resulting state is that of the input state. -/
theorem animatePacket_serverState (s : SimState) (a : PacketAnimation) (q : ℚ) :
    (animatePacket s a q).state.serverState = s.serverState := by
  unfold animatePacket
  split <;> rfl

/-- `animatePacket` only appends to the log: the connection status of the
resulting state is that of the input state. -/
theorem animatePacket_connectionStatus (s : SimState) (a : PacketAnimation) (q : ℚ) :
    (animatePacket s a q).state.connectionStatus = s.connectionStatus := by
  unfold animatePacket
  split <;> rfl

/-- `animatePacket` only appends to the log: the stored sequence cells of the
resulting state are those of the input state. -/
theorem animatePacket_seqCells (s : SimState) (a : PacketAnimation) (q : ℚ) :
    (animatePacket s a q).state.clientSeq = s.clientSeq ∧
    (animatePacket s a q).state.serverSeq = s.serverSeq := by
  unfold animatePacket
  split <;> exact ⟨rfl, rfl⟩

/-- C9: the loss oracle returns false under policy `none` for every kind;
under a kind policy it returns true exactly for the matching kind (via the
lowercased tag) and false for the other two; under `random` it returns true
exactly when the consumed draw is below 0.3.  Being a pure function of its
arguments, it has no side effect beyond consuming the draw. -/
theorem loss_oracle_contract (k : PacketType) (q : ℚ) :
    shouldDropPacket .none (packetTypeTag k) q = false ∧
    (shouldDropPacket .syn (packetTypeTag k) q = true ↔ k = .SYN) ∧
    (shouldDropPacket .synAck (packetTypeTag k) q = true ↔ k = .SYN_ACK) ∧
    (shouldDropPacket .ack (packetTypeTag k) q = true ↔ k = .ACK) ∧
    (shouldDropPacket .random (packetTypeTag k) q = true ↔ q < mkRat 3 10) := by
  cases k <;>
    refine ⟨rfl, ?_, ?_, ?_, decide_eq_true_iff⟩ <;>
    first
      | exact iff_of_true rfl rfl
      | exact iff_of_false (fun h => Bool.noConfusion h) (fun h => PacketType.noConfusion h)

/-- C10: `executeStep` applies its pre-transition without checking any
precondition: from every current state (FAILED and ESTABLISHED included),
step 1 sets the client to SYN-SENT and the status to connecting, step 2 sets
the server to SYN-RECEIVED, and step 2 succeeds under loss policy `none`
even when step 1 never ran; ordering is enforced only by the driver's step
counter. -/
theorem executeStep_unguarded (s : SimState) (q : ℚ) :
    (executeStep s 1 q).state.clientState = .SYN_SENT ∧
    (executeStep s 1 q).state.connectionStatus = .connecting ∧
    (executeStep s 2 q).state.serverState = .SYN_RECEIVED ∧
    (executeStep { s with packetLoss := .none } 2 q).success = true := by
  refine ⟨?_, ?_, ?_, rfl⟩
  · exact animatePacket_clientState
      { s with clientState := .SYN_SENT, connectionStatus := .connecting }
      ⟨.SYN, some s.clientSeq, Option.none, .clientToServer⟩ q
  · exact animatePacket_connectionStatus
      { s with clientState := .SYN_SENT, connectionStatus := .connecting }
      ⟨.SYN, some s.clientSeq, Option.none, .clientToServer⟩ q
  · exact animatePacket_serverState
      { s with serverState := .SYN_RECEIVED }
      ⟨.SYN_ACK, some s.serverSeq, some (s.clientSeq + 1), .serverToClient⟩ q

/-- C6: when the attempt's packet is dropped, the optimistic pre-transition
survives: a dropped step-1 attempt leaves the client in SYN-SENT with status
connecting, and a dropped step-2 attempt leaves the server in SYN-RECEIVED,
while the attempt itself reports failure. -/
theorem optimistic_pretransition (s : SimState) (q : ℚ) :
    (shouldDropPacket s.packetLoss "SYN" q = true →
      (executeStep s 1 q).success = false ∧
      (executeStep s 1 q).state.clientState = .SYN_SENT ∧
      (executeStep s 1 q).state.connectionStatus = .connecting) ∧
    (shouldDropPacket s.packetLoss "SYN-ACK" q = true →
      (executeStep s 2 q).success = false ∧
      (executeStep s 2 q).state.serverState = .SYN_RECEIVED) := by
  constructor
  · intro h
    refine ⟨?_, ?_, ?_⟩ <;>
      simp [executeStep, animatePacket, packetTypeTag, addLog, h]
  · intro h
    refine ⟨?_, ?_⟩ <;>
      simp [executeStep, animatePacket, packetTypeTag, addLog, h]

/-- Witness for C6 at a concrete input: policy `random` with draw 0 drops
both packets. -/
theorem optimistic_pretransition_witness :
    (executeStep { initialState with packetLoss := .random } 1 0).state.clientState
        = .SYN_SENT ∧
    (executeStep { initialState with packetLoss := .random } 2 0).state.serverState
        = .SYN_RECEIVED :=
  ⟨((optimistic_pretransition { initialState with packetLoss := .random } 0).1
      (by decide)).2.1,
   ((optimistic_pretransition { initialState with packetLoss := .random } 0).2
      (by decide)).2⟩

/-- C4: the step-2 SYN-ACK packet carries ack = clientSeq + 1 and the step-3
ACK packet carries seq = clientSeq + 1 and ack = serverSeq + 1; with the
fixed ISNs clientISN = 1000 and serverISN = 2000 the concrete values are
ack = 1001 for step 2 and seq = 1001, ack = 2001 for step 3. -/
theorem packet_sequence_number_law (s : SimState) (q : ℚ) :
    (executeStep { s with packetLoss := .none } 2 q).event =
      some ⟨.SYN_ACK, some s.serverSeq, some (s.clientSeq + 1), .serverToClient⟩ ∧
    (executeStep { s with packetLoss := .none } 3 q).event =
      some ⟨.ACK, some (s.clientSeq + 1), some (s.serverSeq + 1), .clientToServer⟩ ∧
    (executeStep initialState 2 0).event =
      some ⟨.SYN_ACK, some 2000, some 1001, .serverToClient⟩ ∧
    (executeStep initialState 3 0).event =
      some ⟨.ACK, some 1001, some 2001, .clientToServer⟩ := by
  exact ⟨rfl, rfl, by decide, by decide⟩

/-- C3: `generateISN` of the primary variant has the single base 1000 for
both endpoint calls: with randomisation off the server-space call also
returns 1000 (not the claimed 2000), so after a non-randomised reset the two
ISNs collide; with randomisation on and draw 0 the server-space value is
1000, below the claimed 2000–11999 range.  The simpler variant's dedicated
server initialiser does use base 2000 as the claim states. -/
theorem generateISN_single_base :
    generateISN false 0 = 1000 ∧
    generateISN true 0 = 1000 ∧
    (resetSimulation { initialState with randomizeISN := false } 0 0).serverISN = 1000 ∧
    (resetSimulation { initialState with randomizeISN := false } 0 0).clientISN =
      (resetSimulation { initialState with randomizeISN := false } 0 0).serverISN ∧
    simpleServerISNInit false 0 = 2000 ∧
    simpleServerISNInit true 0 = 2000 := by
  refine ⟨rfl, by decide, rfl, rfl, rfl, by decide⟩

/-- Whenever the retry loop returns success, the state it returns has the
shared retry counter reset to 0 (induction over the remaining fuel). -/
theorem stepAttemptLoop_success_retryCount (step : ℕ) (qs : ℕ → ℚ) :
    ∀ (fuel attempts : ℕ) (s : SimState),
      (stepAttemptLoop step qs fuel attempts s).1 = true →
      (stepAttemptLoop step qs fuel attempts s).2.retryCount = 0 := by
  intro fuel
  induction fuel with
  | zero =>
    intro attempts s h
    exact absurd h (by simp [stepAttemptLoop])
  | succ n ih =>
    intro attempts s h
    by_cases h1 : attempts < maxRetries
    · by_cases h2 : (executeStep s step (qs attempts)).success = true
      · simp only [stepAttemptLoop, h1, if_true, h2] at h ⊢
      · by_cases h3 : attempts + 1 < maxRetries
        · simp only [stepAttemptLoop, h1, if_true, h2, if_false, h3,
            Bool.false_eq_true] at h ⊢
          exact ih _ _ h
        · simp only [stepAttemptLoop, h1, if_true, h2, if_false, h3,
            Bool.false_eq_true] at h ⊢
          exact ih _ _ h
    · simp [stepAttemptLoop, h1] at h

/-- C2: with a loss policy matching the step's packet kind, every attempt
drops, so the retry controller attempts the step exactly three times (three
loss entries and two retransmission notices in the log), then sets both
endpoints to FAILED, sets the status to failed, leaves the retry counter at
3, clears the simulating flag (halting the run) and returns failure; and
whenever the controller returns success the retry counter has been reset
to 0. -/
theorem retry_controller_contract (s : SimState) (step : ℕ) (qs : ℕ → ℚ)
    (hmatch : (step = 1 ∧ s.packetLoss = .syn) ∨ (step = 2 ∧ s.packetLoss = .synAck) ∨
      (step = 3 ∧ s.packetLoss = .ack)) :
    ((handleStepExecution s step qs).1 = false ∧
     (handleStepExecution s step qs).2.connectionStatus = .failed ∧
     (handleStepExecution s step qs).2.clientState = .FAILED ∧
     (handleStepExecution s step qs).2.serverState = .FAILED ∧
     (handleStepExecution s step qs).2.retryCount = 3 ∧
     (handleStepExecution s step qs).2.isSimulating = false ∧
     (handleStepExecution s step qs).2.logs = s.logs ++
       [("❌ " ++ stepPacketTag step ++ " packet lost!", .error),
        ("🔄 Retransmitting... (Attempt 2/3)", .warning),
        ("❌ " ++ stepPacketTag step ++ " packet lost!", .error),
        ("🔄 Retransmitting... (Attempt 3/3)", .warning),
        ("❌ " ++ stepPacketTag step ++ " packet lost!", .error),
        ("❌ CONNECTION FAILED - Max retries exceeded", .error)]) ∧
    (∀ (s2 : SimState) (step2 : ℕ) (qs2 : ℕ → ℚ),
      (handleStepExecution s2 step2 qs2).1 = true →
      (handleStepExecution s2 step2 qs2).2.retryCount = 0) := by
  constructor
  · rcases hmatch with ⟨rfl, hp⟩ | ⟨rfl, hp⟩ | ⟨rfl, hp⟩ <;>
      refine ⟨?_, ?_, ?_, ?_, ?_, ?_, ?_⟩ <;>
      (simp [handleStepExecution, stepAttemptLoop, executeStep, animatePacket,
        shouldDropPacket, hp, lossTag, strToLower, packetTypeTag, addLog,
        failAfterRetries, maxRetries, stepPacketTag, List.append_assoc];
       try exact ⟨rfl, rfl⟩)
  · intro s2 step2 qs2 h
    exact stepAttemptLoop_success_retryCount step2 qs2 _ 0 s2 h

/-- Witness for C2 at a concrete input: policy `syn` on step 1 exhausts the
three attempts, and step 1 under policy `none` succeeds with counter 0. -/
theorem retry_controller_contract_witness :
    (handleStepExecution { initialState with packetLoss := .syn } 1 (fun _ => 0)).2.retryCount
        = 3 ∧
    (handleStepExecution initialState 1 (fun _ => 0)).2.retryCount = 0 :=
  ⟨((retry_controller_contract { initialState with packetLoss := .syn } 1 (fun _ => 0)
        (Or.inl ⟨rfl, rfl⟩)).1).2.2.2.2.1,
   ((retry_controller_contract { initialState with packetLoss := .syn } 1 (fun _ => 0)
        (Or.inl ⟨rfl, rfl⟩)).2) initialState 1 (fun _ => 0) (by decide)⟩

/-- C1: the claim fails in the program because of the stale-closure guard —
a run-to-completion simulation started from a freshly reset state (where the
committed `isSimulating` is false) breaks out of the step loop before
step 1, for every loss policy including `none`: the run executes no step,
changes nothing observable, and ends with status idle and step counter 0
instead of executing steps 1, 2, 3 and establishing. -/
theorem auto_run_stale_guard (s0 : SimState) (r1 r2 : ℕ) (qss : ℕ → ℕ → ℚ) :
    startAutoSimulation (resetSimulation { s0 with packetLoss := .none } r1 r2) qss
        = resetSimulation { s0 with packetLoss := .none } r1 r2 ∧
    (startAutoSimulation (resetSimulation { s0 with packetLoss := .none } r1 r2) qss).connectionStatus
        = .idle ∧
    (startAutoSimulation (resetSimulation { s0 with packetLoss := .none } r1 r2) qss).clientState
        = .CLOSED ∧
    (startAutoSimulation (resetSimulation { s0 with packetLoss := .none } r1 r2) qss).serverState
        = .CLOSED ∧
    (startAutoSimulation (resetSimulation { s0 with packetLoss := .none } r1 r2) qss).currentStep
        = 0 := by
  exact ⟨rfl, rfl, rfl, rfl, rfl⟩

/-- C5 counterexample: after a failed single-step run under policy `syn`
(status failed, both endpoints FAILED, step counter still 0), a further
advance call, with the loss policy now `none`, moves the status back to
connecting without any reset. -/
theorem failed_state_advance_counterexample :
    (executeNextStep (resetSimulation
        { initialState with packetLoss := .syn, randomizeISN := false } 0 0)
      (fun _ => 0)).connectionStatus = .failed ∧
    (executeNextStep
        { (executeNextStep (resetSimulation
            { initialState with packetLoss := .syn, randomizeISN := false } 0 0)
            (fun _ => 0)) with packetLoss := PacketLoss.none }
      (fun _ => 0)).connectionStatus = .connecting := by
  exact ⟨by decide, by decide⟩

/-- C5 amended: from a failed state the automatic retry logic never resumes
(the failure handler clears the simulating flag), and an advance call with
the step counter already at 3 is a strict no-op; but an explicit advance
from a failed state whose step counter is below 3 re-executes the next step
without any guard on the failed status — under loss policy `none` and step
counter 0 it moves the status back to connecting and the client to SYN-SENT.
Only an explicit reset is guaranteed to leave the failed state cleanly. -/
theorem failed_state_advance_amended (s : SimState) (qs : ℕ → ℚ) :
    (3 ≤ s.currentStep → executeNextStep s qs = s) ∧
    (s.connectionStatus = .failed → s.currentStep = 0 →
      s.packetLoss = PacketLoss.none →
      (executeNextStep s qs).connectionStatus = .connecting ∧
      (executeNextStep s qs).clientState = .SYN_SENT ∧
      (executeNextStep s qs).currentStep = 1) := by
  constructor
  · intro h
    simp [executeNextStep, h]
  · intro _ hstep hp
    refine ⟨?_, ?_, ?_⟩ <;>
      simp [executeNextStep, hstep, handleStepExecution, stepAttemptLoop,
        executeStep, animatePacket, shouldDropPacket, hp, addLog, maxRetries]

/-- Witness for C5 (amended) at concrete inputs: advance is a no-op at step
counter 3, and from a concrete failed state with counter 0 and policy `none`
the advance call lands in connecting. -/
theorem failed_state_advance_amended_witness :
    executeNextStep { initialState with currentStep := 3 } (fun _ => 0)
        = { initialState with currentStep := 3 } ∧
    (executeNextStep
        { initialState with
            connectionStatus := .failed
            clientState := .FAILED
            serverState := .FAILED
            retryCount := 3 }
      (fun _ => 0)).connectionStatus = .connecting :=
  ⟨(failed_state_advance_amended { initialState with currentStep := 3 }
      (fun _ => 0)).1 (by decide),
   ((failed_state_advance_amended
      { initialState with
          connectionStatus := .failed
          clientState := .FAILED
          serverState := .FAILED
          retryCount := 3 }
      (fun _ => 0)).2 rfl rfl rfl).1⟩

/-- C7 counterexample: three single-step advance calls under loss policy
`none` deliver steps 1, 2 and 3 (reaching status established), yet the
stored clientSeq still equals the ISN value 1000, not clientISN + 1 as the
claim requires once step 2 has been delivered. -/
theorem stored_seq_counterexample :
    (executeNextStep (executeNextStep (executeNextStep
        (resetSimulation { initialState with randomizeISN := false } 0 0)
        (fun _ => 0)) (fun _ => 0)) (fun _ => 0)).connectionStatus = .established ∧
    (executeNextStep (executeNextStep (executeNextStep
        (resetSimulation { initialState with randomizeISN := false } 0 0)
        (fun _ => 0)) (fun _ => 0)) (fun _ => 0)).clientISN = 1000 ∧
    (executeNextStep (executeNextStep (executeNextStep
        (resetSimulation { initialState with randomizeISN := false } 0 0)
        (fun _ => 0)) (fun _ => 0)) (fun _ => 0)).clientSeq = 1000 ∧
    ¬ (executeNextStep (executeNextStep (executeNextStep
        (resetSimulation { initialState with randomizeISN := false } 0 0)
        (fun _ => 0)) (fun _ => 0)) (fun _ => 0)).clientSeq =
      (executeNextStep (executeNextStep (executeNextStep
        (resetSimulation { initialState with randomizeISN := false } 0 0)
        (fun _ => 0)) (fun _ => 0)) (fun _ => 0)).clientISN + 1 := by
  exact ⟨by decide, by decide, by decide, by decide⟩

/-- C7 amended: after a reset the stored clientSeq equals clientISN and the
stored serverSeq equals serverISN, and they never change thereafter:
`executeStep` reads them but never writes them — the + 1 advancement appears
only in the packet fields, never in the stored sequence cells. -/
theorem stored_seq_amended (s : SimState) (r1 r2 : ℕ) :
    ((resetSimulation s r1 r2).clientSeq = (resetSimulation s r1 r2).clientISN ∧
     (resetSimulation s r1 r2).serverSeq = (resetSimulation s r1 r2).serverISN) ∧
    ∀ (step : ℕ) (q : ℚ),
      (executeStep s step q).state.clientSeq = s.clientSeq ∧
      (executeStep s step q).state.serverSeq = s.serverSeq := by
  refine ⟨⟨rfl, rfl⟩, ?_⟩
  intro step q
  unfold executeStep
  split_ifs with h1 h2 h3
  · exact animatePacket_seqCells _ _ q
  · exact animatePacket_seqCells _ _ q
  · by_cases hs :
      (animatePacket s ⟨.ACK, some (s.clientSeq + 1), some (s.serverSeq + 1),
        .clientToServer⟩ q).success = true
    · simpa [hs, addLog] using animatePacket_seqCells s
        ⟨.ACK, some (s.clientSeq + 1), some (s.serverSeq + 1), .clientToServer⟩ q
    · simpa [hs] using animatePacket_seqCells s
        ⟨.ACK, some (s.clientSeq + 1), some (s.serverSeq + 1), .clientToServer⟩ q
  · exact ⟨rfl, rfl⟩

/-- C8 counterexample: the log is not empty after a reset — the reset
handler clears it and then appends its own reset notice. -/
theorem reset_log_counterexample :
    ¬ (resetSimulation initialState 0 0).logs = [] := by decide

/-- C8 amended: after a single reset the observable state is client CLOSED,
server CLOSED, status idle, step counter 0, retry counter 0, the log cleared
to exactly the one reset notice, and ISNs regenerated from the fresh draws
with the derived sequence cells equal to them; resetting twice with the same
final draws yields a state identical to resetting once. -/
theorem reset_postcondition_amended (s : SimState) (r1 r2 r3 r4 : ℕ) :
    (resetSimulation s r1 r2).clientState = .CLOSED ∧
    (resetSimulation s r1 r2).serverState = .CLOSED ∧
    (resetSimulation s r1 r2).connectionStatus = .idle ∧
    (resetSimulation s r1 r2).currentStep = 0 ∧
    (resetSimulation s r1 r2).retryCount = 0 ∧
    (resetSimulation s r1 r2).logs =
      [("Simulation reset. Ready to start TCP 3-Way Handshake.", .info)] ∧
    (resetSimulation s r1 r2).clientISN = generateISN s.randomizeISN r1 ∧
    (resetSimulation s r1 r2).serverISN = generateISN s.randomizeISN r2 ∧
    (resetSimulation s r1 r2).clientSeq = (resetSimulation s r1 r2).clientISN ∧
    (resetSimulation s r1 r2).serverSeq = (resetSimulation s r1 r2).serverISN ∧
    resetSimulation (resetSimulation s r1 r2) r3 r4 = resetSimulation s r3 r4 := by
  exact ⟨rfl, rfl, rfl, rfl, rfl, rfl, rfl, rfl, rfl, rfl, rfl⟩

